import Mathlib

/-!
Verification development for the motion-detection core in `src/detector.py`
(class `MotionDetector`).  The Python class is shallowly embedded: the mutable
object state becomes an explicit `DetectorState` record threaded through pure
functions, each named after the method it translates.  The OpenCV front end
(grayscale conversion, Gaussian blur, MOG2 background subtraction, morphology)
is an external library pipeline producing the binary foreground mask, so the
embedded pipeline takes that post-morphology mask directly as its input, as a
list of pixel rows.  The external routines `cv2.findContours` and
`cv2.contourArea` are modelled as the 4-connected components of the binary
mask together with their pixel-count areas.  Wall-clock time (`time.time`)
becomes an explicit `now : Nat` argument, and the filesystem behind
`save_rois` and `load_rois` becomes an explicit `RoiFile` value.
-/

/-- Configuration fields of `DetectorConfig` (detector.py lines 22-46) that the
motion/ROI core reads.  Thresholds compare against pixel-count contour areas,
so they are natural numbers here. -/
structure DetectorConfig where
  motion_threshold : Nat
  min_contour_area : Nat
  max_small_contours : Nat
  motion_smoothing_frames : Nat
  max_rois : Nat
deriving Repr, DecidableEq

/-- The default values assigned in the constructor of `DetectorConfig`. -/
def defaultConfig : DetectorConfig where
  motion_threshold := 800
  min_contour_area := 1500
  max_small_contours := 50
  motion_smoothing_frames := 3
  max_rois := 4

/-- One ROI record, the dict built in `add_roi` (detector.py lines 153-158):
an id, four corner coordinates, the transient motion flag and the optional
time of the last confirmed motion. -/
structure Roi where
  id : Nat
  coords : Int × Int × Int × Int
  motion_detected : Bool
  last_motion_time : Option Nat
deriving Repr, DecidableEq

/-- The mutable state of a `MotionDetector` object that the embedded methods
touch: the configuration, the ROI list `self.rois`, the per-id history dict
`self.motion_history` (an association list here), and the rain flag
`self.rain_detection_active`. -/
structure DetectorState where
  config : DetectorConfig
  rois : List Roi
  motion_history : List (Nat × List Bool)
  rain_detection_active : Bool
deriving Repr, DecidableEq

/-- Dictionary read `self.motion_history[roi_id]` on the association list. -/
def histLookup (h : List (Nat × List Bool)) (k : Nat) : Option (List Bool) :=
  (h.find? (fun p => p.1 == k)).map Prod.snd

/-- Dictionary write `self.motion_history[roi_id] = v` on the association
list: overwrite the existing entry in place, or append a fresh one. -/
def histSet (h : List (Nat × List Bool)) (k : Nat) (v : List Bool) :
    List (Nat × List Bool) :=
  if h.any (fun p => p.1 == k) then
    h.map (fun p => if p.1 == k then (k, v) else p)
  else h ++ [(k, v)]

/-- Dictionary removal `self.motion_history.pop(roi_id, None)`. -/
def histErase (h : List (Nat × List Bool)) (k : Nat) : List (Nat × List Bool) :=
  h.filter (fun p => p.1 != k)

/-- The id generator of `add_roi` (line 151):
`max([roi['id'] for roi in self.rois], default=0)`. -/
def maxRoiId (rois : List Roi) : Nat :=
  rois.foldl (fun m r => max m r.id) 0

/-- `MotionDetector.add_roi` (detector.py lines 143-166).  Fails (returning
`false` and the unchanged state) when the list already holds at least
`max_rois` entries; otherwise appends a fresh ROI with id
`maxRoiId rois + 1`, cleared motion flag and no last-motion time. -/
def add_roi (st : DetectorState) (x1 y1 x2 y2 : Int) : Bool × DetectorState :=
  if st.config.max_rois ≤ st.rois.length then (false, st)
  else
    let roi : Roi :=
      { id := maxRoiId st.rois + 1
        coords := (x1, y1, x2, y2)
        motion_detected := false
        last_motion_time := none }
    (true, { st with rois := st.rois ++ [roi] })

/-- Removal of the first ROI with a matching id, as the indexed `del` in the
loop of `delete_roi` does. -/
def eraseFirstById : List Roi → Nat → List Roi
  | [], _ => []
  | r :: rs, i => if r.id == i then rs else r :: eraseFirstById rs i

/-- `MotionDetector.delete_roi` (detector.py lines 168-181): deletes the first
ROI whose id matches together with its motion-history entry and reports
whether a match was found. -/
def delete_roi (st : DetectorState) (roi_id : Nat) : Bool × DetectorState :=
  if st.rois.any (fun r => r.id == roi_id) then
    (true, { st with
      rois := eraseFirstById st.rois roi_id
      motion_history := histErase st.motion_history roi_id })
  else (false, st)

/-- `MotionDetector.clear_rois` (detector.py lines 183-187). -/
def clear_rois (st : DetectorState) : DetectorState :=
  { st with rois := [], motion_history := [] }

/-- Contents of the ROI config file as `load_rois` can encounter them: the
file may be absent, unreadable or unparsable (both of which the
`try`/`except` of lines 207-222 turn into a `false` return), or hold a list
of parsed ROI records.  JSON serialization of the record fields (ints, a
4-int list, a bool, a float-or-null) is faithful, so the round trip through
the file is modelled as carrying the records themselves. -/
inductive RoiFile where
  | absent
  | malformed
  | records (rs : List Roi)
deriving Repr, DecidableEq

/-- `MotionDetector.save_rois` (detector.py lines 189-203).  The filesystem
outcome is the explicit argument `ioOk`: on success the JSON dump of the
current ROI list is written and `true` returned; any raised I/O error is
caught and turned into `false`, with no file contents guaranteed. -/
def save_rois (st : DetectorState) (ioOk : Bool) : Bool × Option RoiFile :=
  if ioOk then (true, some (RoiFile.records st.rois)) else (false, none)

/-- `MotionDetector.load_rois` (detector.py lines 205-222).  An absent file
returns `false` before touching the state; a read or parse failure raises
inside the `try` before the assignment to `self.rois`, is caught, and also
returns `false` with the state unchanged.  Otherwise `self.rois` is replaced
wholesale by the parsed records, with no capacity or schema check, and the
motion-history dict is left as it was. -/
def load_rois (st : DetectorState) (file : RoiFile) : Bool × DetectorState :=
  match file with
  | RoiFile.absent => (false, st)
  | RoiFile.malformed => (false, st)
  | RoiFile.records rs => (true, { st with rois := rs })

/-- A freshly constructed detector with no ROI config file present: empty ROI
list, empty motion history, rain flag cleared (detector.py lines 119-141). -/
def freshState (cfg : DetectorConfig) : DetectorState :=
  { config := cfg
    rois := []
    motion_history := []
    rain_detection_active := false }

/-- Conversion of one Python slice bound to an index into a list of length
`n`: a nonnegative bound is clamped to at most `n`, a negative bound counts
from the end and is clamped to at least `0`.  These are exactly the semantics
`fg_mask[y1:y2, x1:x2]` applies per axis, which is why out-of-range ROI
rectangles never raise (numpy slicing clips instead of raising). -/
def pyIdx (n : Nat) (i : Int) : Nat :=
  if i < 0 then ((n : Int) + i).toNat else min i.toNat n

/-- Python list slice `l[a:b]`. -/
def pySlice {α : Type} (l : List α) (a b : Int) : List α :=
  (l.take (pyIdx l.length b)).drop (pyIdx l.length a)

/-- The ROI crop `fg_mask[y1:y2, x1:x2]` (detector.py line 260) on a mask
stored as a list of pixel rows. -/
def crop (m : List (List Bool)) (y1 y2 x1 x2 : Int) : List (List Bool) :=
  (pySlice m y1 y2).map (fun row => pySlice row x1 x2)

/-- Indices of the true pixels of one mask row, offset by `i`. -/
def trueIdx : List Bool → Nat → List Nat
  | [], _ => []
  | b :: bs, i => if b then i :: trueIdx bs (i + 1) else trueIdx bs (i + 1)

/-- All foreground pixel coordinates of a mask, row by row from row `y`. -/
def cellsFrom : List (List Bool) → Nat → List (Nat × Nat)
  | [], _ => []
  | row :: rows, y => (trueIdx row 0).map (fun x => (y, x)) ++ cellsFrom rows (y + 1)

/-- All foreground pixel coordinates of a mask. -/
def cells (m : List (List Bool)) : List (Nat × Nat) := cellsFrom m 0

/-- 4-neighbourhood adjacency of pixel coordinates. -/
def adjCell (p q : Nat × Nat) : Bool :=
  (p.1 == q.1 && (p.2 + 1 == q.2 || q.2 + 1 == p.2)) ||
  (p.2 == q.2 && (p.1 + 1 == q.1 || q.1 + 1 == p.1))

/-- Grow a component: repeatedly move every remaining cell adjacent to the
component into it, until nothing moves or the fuel runs out. -/
def growIter : Nat → List (Nat × Nat) → List (Nat × Nat) →
    List (Nat × Nat) × List (Nat × Nat)
  | 0, comp, rest => (comp, rest)
  | n + 1, comp, rest =>
    let newly := rest.filter (fun c => comp.any (fun p => adjCell p c))
    if newly.isEmpty then (comp, rest)
    else growIter n (comp ++ newly) (rest.filter (fun c => !comp.any (fun p => adjCell p c)))

/-- Split a cell list into connected components, seeding each component from
the first remaining cell.  The fuel (number of cells) bounds both loops. -/
def components : Nat → List (Nat × Nat) → List (List (Nat × Nat))
  | 0, _ => []
  | _, [] => []
  | n + 1, c :: rest =>
    let (comp, rest') := growIter (rest.length + 1) [c] rest
    comp :: components n rest'

/-- Model of the external contour analysis
`cv2.findContours` + `cv2.contourArea` (detector.py lines 242, 261, 264-265):
the external contours of a binary mask are its 4-connected foreground
components and the area of a contour is its pixel count. -/
def contourAreas (m : List (List Bool)) : List Nat :=
  (components (cells m).length (cells m)).map List.length

/-- The rain classifier (detector.py lines 241-246): count the full-mask
contours whose area is strictly below `min_contour_area`; rain is active when
that count strictly exceeds `max_small_contours`. -/
def rainActive (cfg : DetectorConfig) (mask : List (List Bool)) : Bool :=
  decide (cfg.max_small_contours <
    ((contourAreas mask).filter (fun a => a < cfg.min_contour_area)).length)

/-- The motion scorer for one ROI (detector.py lines 259-265): crop the mask
to the rectangle, keep the contours with area at least `min_contour_area`,
and sum their areas into `total_area`. -/
def roiTotalArea (cfg : DetectorConfig) (mask : List (List Bool)) (roi : Roi) : Nat :=
  ((contourAreas (crop mask roi.coords.2.1 roi.coords.2.2.2 roi.coords.1 roi.coords.2.2.1)).filter
    (fun a => cfg.min_contour_area ≤ a)).foldl (fun s a => s + a) 0

/-- The raw per-frame motion decision appended to the history (line 268):
`total_area > motion_threshold`. -/
def roiRawMotion (cfg : DetectorConfig) (mask : List (List Bool)) (roi : Roi) : Bool :=
  decide (cfg.motion_threshold < roiTotalArea cfg mask roi)

/-- The history window update (lines 268-270): append the raw decision, then
pop the oldest entry once the length exceeds `motion_smoothing_frames`. -/
def updatedHistory (cfg : DetectorConfig) (h : List Bool) (raw : Bool) : List Bool :=
  let h1 := h ++ [raw]
  if cfg.motion_smoothing_frames < h1.length then h1.drop 1 else h1

/-- The temporal-smoothing rule (lines 272-276): the window holds at least
`motion_smoothing_frames` entries and at least 2 of them are true — the
Python comparison `sum(history) >= 2` is a hardcoded 2, whatever the window
size. -/
def consistentMotion (cfg : DetectorConfig) (h : List Bool) : Bool :=
  decide (cfg.motion_smoothing_frames ≤ h.length) && decide (2 ≤ (h.filter id).length)

/-- The new window for one ROI given the history dict (lines 255-270): a
missing entry is initialised to the empty list before appending. -/
def roiNewHistory (cfg : DetectorConfig) (mask : List (List Bool)) (roi : Roi)
    (hist : List (Nat × List Bool)) : List Bool :=
  updatedHistory cfg ((histLookup hist roi.id).getD []) (roiRawMotion cfg mask roi)

/-- The per-ROI loop of `detect_motion_in_rois` (detector.py lines 251-288),
processing the ROIs in list order while threading the history dict.  Returns
the accumulated any-motion flag, the updated ROI records in order, and the
final history dict.  `rain` is the just-recomputed rain flag read inside the
loop (line 279). -/
def roiLoop (cfg : DetectorConfig) (mask : List (List Bool)) (rain : Bool) (now : Nat) :
    List Roi → List (Nat × List Bool) → Bool × List Roi × List (Nat × List Bool)
  | [], hist => (false, [], hist)
  | roi :: rest, hist =>
    let h2 := roiNewHistory cfg mask roi hist
    let md := consistentMotion cfg h2 && !rain
    let roi' : Roi :=
      { roi with
        motion_detected := md
        last_motion_time := if md then some now else roi.last_motion_time }
    let tl := roiLoop cfg mask rain now rest (histSet hist roi.id h2)
    (md || tl.1, roi' :: tl.2.1, tl.2.2)

/-- `MotionDetector.detect_motion_in_rois` (detector.py lines 224-290): with
no ROIs it returns `false` at once, before the rain flag is touched;
otherwise it recomputes `rain_detection_active` from the full mask and runs
the per-ROI loop. -/
def detect_motion_in_rois (st : DetectorState) (mask : List (List Bool)) (now : Nat) :
    Bool × DetectorState :=
  if st.rois.isEmpty then (false, st)
  else
    let rain := rainActive st.config mask
    let out := roiLoop st.config mask rain now st.rois st.motion_history
    (out.1, { st with
      rain_detection_active := rain
      rois := out.2.1
      motion_history := out.2.2 })

/-- The per-frame result dict of `process_frame` (detector.py lines 294-298). -/
structure FrameResult where
  motion_detected : Bool
  rain_active : Bool
  active_rois : Nat
deriving Repr, DecidableEq

/-- The sequence of smoothing windows the per-ROI loop produces, one per ROI
in list order: a projection of `roiLoop` used to state per-ROI properties. -/
def loopWindows (cfg : DetectorConfig) (mask : List (List Bool)) :
    List Roi → List (Nat × List Bool) → List (List Bool)
  | [], _ => []
  | roi :: rest, hist =>
    roiNewHistory cfg mask roi hist ::
      loopWindows cfg mask rest (histSet hist roi.id (roiNewHistory cfg mask roi hist))

/-- Modelled from the spec: the generalized majority rule the spec prescribes
for the temporal smoother, window full and `count >= (N // 2) + 1` true
entries, with `N = motion_smoothing_frames`.  Stated for comparison with the
`consistentMotion` rule the source implements. -/
def specMajorityConfirmed (cfg : DetectorConfig) (h : List Bool) : Bool :=
  decide (cfg.motion_smoothing_frames ≤ h.length) &&
    decide (cfg.motion_smoothing_frames / 2 + 1 ≤ (h.filter id).length)

/-- Iterated `add_roi` over a list of corner tuples, discarding the success
flags: the call sequences quantified over by the capacity invariant. -/
def addSeq : List (Int × Int × Int × Int) → DetectorState → DetectorState
  | [], st => st
  | c :: cs, st => addSeq cs (add_roi st c.1 c.2.1 c.2.2.1 c.2.2.2).2

/-- `MotionDetector.process_frame` (detector.py lines 292-304).  The result
dict is built first, so its `rain_active` and `active_rois` fields are read
from the state as it was before this frame; only `motion_detected` is then
overwritten with the outcome of `detect_motion_in_rois`, which is invoked
just when the ROI list is non-empty. -/
def process_frame (st : DetectorState) (mask : List (List Bool)) (now : Nat) :
    FrameResult × DetectorState :=
  let rain0 := st.rain_detection_active
  let active0 := (st.rois.filter (fun r => r.motion_detected)).length
  if st.rois.isEmpty then
    ({ motion_detected := false, rain_active := rain0, active_rois := active0 }, st)
  else
    let out := detect_motion_in_rois st mask now
    ({ motion_detected := out.1, rain_active := rain0, active_rois := active0 }, out.2)


/-! Helper lemmas. -/

/-- The fold computing `maxRoiId` never drops below its initial value. -/
lemma init_le_foldl_max (l : List Roi) (init : Nat) :
    init ≤ l.foldl (fun m r => max m r.id) init := by
  induction l generalizing init with
  | nil => simp
  | cons a tl ih => exact le_trans (le_max_left _ _) (ih (max init a.id))

/-- Every id present in the list is bounded by the fold computing `maxRoiId`. -/
lemma mem_le_foldl_max (l : List Roi) (r : Roi) (hr : r ∈ l) (init : Nat) :
    r.id ≤ l.foldl (fun m r => max m r.id) init := by
  induction l generalizing init with
  | nil => cases hr
  | cons a tl ih =>
    rcases List.mem_cons.mp hr with h | h
    · subst h
      exact le_trans (le_max_right _ _) (init_le_foldl_max tl (max init r.id))
    · exact ih h (max init a.id)

/-- Every id present in the ROI list is at most `maxRoiId`. -/
lemma id_le_maxRoiId (rois : List Roi) (r : Roi) (hr : r ∈ rois) :
    r.id ≤ maxRoiId rois :=
  mem_le_foldl_max rois r hr 0

/-- One `add_roi` call keeps the configuration intact. -/
lemma add_roi_config (st : DetectorState) (x1 y1 x2 y2 : Int) :
    (add_roi st x1 y1 x2 y2).2.config = st.config := by
  unfold add_roi
  split <;> rfl

/-- One `add_roi` call preserves the capacity bound. -/
lemma add_roi_length_le (st : DetectorState) (x1 y1 x2 y2 : Int)
    (h : st.rois.length ≤ st.config.max_rois) :
    (add_roi st x1 y1 x2 y2).2.rois.length ≤ st.config.max_rois := by
  unfold add_roi
  split
  · exact h
  · rename_i hlt
    simp only [List.length_append, List.length_cons, List.length_nil]
    omega

/-- `addSeq` keeps the configuration intact and preserves the capacity
bound. -/
lemma addSeq_inv (seq : List (Int × Int × Int × Int)) (st : DetectorState) :
    (addSeq seq st).config = st.config ∧
      (st.rois.length ≤ st.config.max_rois →
        (addSeq seq st).rois.length ≤ st.config.max_rois) := by
  induction seq generalizing st with
  | nil => exact ⟨rfl, fun h => h⟩
  | cons c cs ih =>
    have hc := add_roi_config st c.1 c.2.1 c.2.2.1 c.2.2.2
    have hstep := ih (add_roi st c.1 c.2.1 c.2.2.1 c.2.2.2).2
    refine ⟨by simpa [addSeq, hc] using hstep.1, fun h => ?_⟩
    have hlen := add_roi_length_le st c.1 c.2.1 c.2.2.1 c.2.2.2 h
    have := hstep.2 (by rw [hc]; exact hlen)
    simpa [addSeq, hc] using this

/-- The motion flags `roiLoop` writes are, ROI by ROI, the smoothing rule on
the corresponding window, gated by the rain flag. -/
lemma roiLoop_flags (cfg : DetectorConfig) (mask : List (List Bool)) (rain : Bool)
    (now : Nat) : ∀ (rois : List Roi) (hist : List (Nat × List Bool)),
    (roiLoop cfg mask rain now rois hist).2.1.map (fun r => r.motion_detected) =
      (loopWindows cfg mask rois hist).map (fun h => consistentMotion cfg h && !rain) := by
  intro rois
  induction rois with
  | nil => intro hist; rfl
  | cons roi rest ih =>
    intro hist
    simp only [roiLoop, loopWindows, List.map_cons, List.map]
    exact congrArg _ (ih _)

/-- A slice whose nonnegative start bound is at or past the end of the list
is empty: the clamp sends the start index to the full length. -/
lemma pySlice_eq_nil {α : Type} (l : List α) (a b : Int) (h0 : 0 ≤ a)
    (hn : (l.length : Int) ≤ a) : pySlice l a b = [] := by
  unfold pySlice pyIdx
  have ha : ¬ a < 0 := not_lt.mpr h0
  have hlen : l.length ≤ a.toNat := by
    rwa [Int.le_toNat (le_trans (Int.ofNat_nonneg _) hn)]
  simp only [ha, if_false]
  refine List.drop_eq_nil_of_le ?_
  exact le_trans (by simp [List.length_take]) (le_min hlen le_rfl)

/-- With every row empty there are no foreground cells. -/
lemma cellsFrom_eq_nil (rows : List (List Bool)) (hrows : ∀ r ∈ rows, r = [])
    : ∀ y, cellsFrom rows y = [] := by
  induction rows with
  | nil => intro y; rfl
  | cons row tl ih =>
    intro y
    have hrow : row = [] := hrows row (List.mem_cons_self _ _)
    have htl : ∀ r ∈ tl, r = [] := fun r hr => hrows r (List.mem_cons_of_mem _ hr)
    simp [cellsFrom, hrow, trueIdx, ih htl]

/-- A mask with no foreground cells has no contours. -/
lemma contourAreas_eq_nil (m : List (List Bool)) (h : cells m = []) :
    contourAreas m = [] := by
  unfold contourAreas
  rw [h]
  rfl

/-- The rows of a slice all come from the original list. -/
lemma mem_of_mem_pySlice {α : Type} (l : List α) (a b : Int) (x : α)
    (hx : x ∈ pySlice l a b) : x ∈ l := by
  unfold pySlice at hx
  exact List.mem_of_mem_take (List.mem_of_mem_drop hx)

/-- An ROI rectangle that lies fully beyond the bottom edge of the frame, or
fully beyond the right edge of every row, crops to a cell-free region and
therefore scores `total_area = 0`. -/
lemma roiTotalArea_eq_zero (cfg : DetectorConfig) (mask : List (List Bool))
    (roi : Roi)
    (hout : (0 ≤ roi.coords.2.1 ∧ (mask.length : Int) ≤ roi.coords.2.1) ∨
      (0 ≤ roi.coords.1 ∧ ∀ row ∈ mask, ((row.length : Int) ≤ roi.coords.1))) :
    roiTotalArea cfg mask roi = 0 := by
  unfold roiTotalArea
  have hcells : cells (crop mask roi.coords.2.1 roi.coords.2.2.2 roi.coords.1
      roi.coords.2.2.1) = [] := by
    rcases hout with ⟨h0, hn⟩ | ⟨h0, hall⟩
    · unfold crop
      rw [pySlice_eq_nil mask _ _ h0 hn]
      rfl
    · unfold crop cells
      refine cellsFrom_eq_nil _ ?_ 0
      intro r hr
      rcases List.mem_map.mp hr with ⟨row, hrow, hsl⟩
      have hrowm := mem_of_mem_pySlice mask _ _ row hrow
      rw [← hsl]
      exact pySlice_eq_nil row _ _ h0 (hall row hrowm)
  rw [contourAreas_eq_nil _ hcells]
  rfl

/-! Claim C1. -/

/-- Configuration used by the C1 scenario: one small contour suffices to flag
rain (`max_small_contours = 0`), other fields at their defaults. -/
def cfgC1 : DetectorConfig where
  motion_threshold := 800
  min_contour_area := 1500
  max_small_contours := 0
  motion_smoothing_frames := 3
  max_rois := 4

/-- C1 scenario state: one ROI whose motion flag is still set from an earlier
frame, empty history, rain flag clear. -/
def stC1 : DetectorState where
  config := cfgC1
  rois := [{ id := 1, coords := (0, 0, 1, 1), motion_detected := true,
             last_motion_time := none }]
  motion_history := []
  rain_detection_active := false

/-- C1 counterexample: on this frame the classifier turns rain on (the new
state records `rain_detection_active = true`) and the ROI loses its motion
flag, yet the returned result says `rain_active = false` and counts 1 active
ROI — both fields are the values from before this frame, so the claim that
they are recomputed this frame and counted after this frame is false. -/
theorem c1_counterexample :
    stC1.rois ≠ [] ∧
    (process_frame stC1 [[true]] 7).1.rain_active = false ∧
    (process_frame stC1 [[true]] 7).2.rain_detection_active = true ∧
    (process_frame stC1 [[true]] 7).1.active_rois = 1 ∧
    ((process_frame stC1 [[true]] 7).2.rois.filter
      (fun r => r.motion_detected)).length = 0 := by
  refine ⟨by decide, ?_, ?_, ?_, ?_⟩ <;> decide

/-- C1 amended: with a non-empty ROI set, `process_frame` reports in
`rain_active` and `active_rois` the rain flag and the count of
motion-flagged ROIs as they were before this frame was processed, while
`motion_detected` and the returned state do come from this frame's run of
`detect_motion_in_rois`. -/
theorem c1_amended (st : DetectorState) (mask : List (List Bool)) (now : Nat)
    (hne : st.rois ≠ []) :
    (process_frame st mask now).1.rain_active = st.rain_detection_active ∧
    (process_frame st mask now).1.active_rois =
      (st.rois.filter (fun r => r.motion_detected)).length ∧
    (process_frame st mask now).1.motion_detected =
      (detect_motion_in_rois st mask now).1 ∧
    (process_frame st mask now).2 = (detect_motion_in_rois st mask now).2 := by
  have hE : st.rois.isEmpty = false := by
    simpa [List.isEmpty_iff] using hne
  simp [process_frame, hE]

/-- Witness for `c1_amended` at the C1 scenario. -/
theorem c1_witness :
    (process_frame stC1 [[true]] 7).1.rain_active = stC1.rain_detection_active ∧
    (process_frame stC1 [[true]] 7).1.active_rois =
      (stC1.rois.filter (fun r => r.motion_detected)).length ∧
    (process_frame stC1 [[true]] 7).1.motion_detected =
      (detect_motion_in_rois stC1 [[true]] 7).1 ∧
    (process_frame stC1 [[true]] 7).2 = (detect_motion_in_rois stC1 [[true]] 7).2 :=
  c1_amended stC1 [[true]] 7 (by decide)

/-! Claim C2. -/

/-- C2 scenario state: empty ROI set but a rain flag left over from an
earlier frame that was processed with ROIs configured. -/
def stC2 : DetectorState where
  config := defaultConfig
  rois := []
  motion_history := []
  rain_detection_active := true

/-- C2 counterexample: with the ROI set empty but the persisted rain flag
still set, `process_frame` reports `rain_active = true`, not the claimed
"rain inactive". -/
theorem c2_counterexample :
    stC2.rois = [] ∧ (process_frame stC2 [[true]] 0).1.rain_active = true := by
  exact ⟨rfl, by decide⟩

/-- C2 amended: with the ROI set empty, `process_frame` reports no motion and
zero active ROIs and performs no motion processing (the state is returned
unchanged), but `rain_active` repeats the persisted flag from the last frame
processed with ROIs instead of being forced inactive. -/
theorem c2_amended (st : DetectorState) (mask : List (List Bool)) (now : Nat)
    (he : st.rois = []) :
    process_frame st mask now =
      ({ motion_detected := false, rain_active := st.rain_detection_active,
         active_rois := 0 }, st) := by
  simp [process_frame, he]

/-- Witness for `c2_amended` at the C2 scenario. -/
theorem c2_witness :
    process_frame stC2 [[true]] 0 =
      ({ motion_detected := false, rain_active := stC2.rain_detection_active,
         active_rois := 0 }, stC2) :=
  c2_amended stC2 [[true]] 0 rfl

/-! Claim C3. -/

/-- Configuration used by the C3 scenario: a window of 5 frames with the
other thresholds set so that a single foreground pixel counts as raw
motion. -/
def cfgC3 : DetectorConfig where
  motion_threshold := 0
  min_contour_area := 1
  max_small_contours := 50
  motion_smoothing_frames := 5
  max_rois := 4

/-- C3 scenario state: one ROI whose window already holds 2 positives among
4 entries. -/
def stC3 : DetectorState where
  config := cfgC3
  rois := [{ id := 1, coords := (0, 0, 1, 1), motion_detected := false,
             last_motion_time := none }]
  motion_history := [(1, [true, true, false, false])]
  rain_detection_active := false

/-- C3 counterexample: with `motion_smoothing_frames = 5` and a full window
holding 2 true entries, the pipeline confirms motion (the hardcoded
`count >= 2` rule), while the claimed generalized rule
`count >= (N // 2) + 1 = 3` says there is none; rain is inactive, so the
gate plays no role. -/
theorem c3_counterexample :
    (detect_motion_in_rois stC3 [[false]] 0).2.rois.map (fun r => r.motion_detected)
        = [true] ∧
    histLookup (detect_motion_in_rois stC3 [[false]] 0).2.motion_history 1 =
      some [true, true, false, false, false] ∧
    specMajorityConfirmed cfgC3 [true, true, false, false, false] = false ∧
    rainActive cfgC3 [[false]] = false := by
  refine ⟨?_, ?_, ?_, ?_⟩ <;> decide

/-- C3 amended: the smoother confirms motion exactly when the window holds at
least `motion_smoothing_frames` entries and at least 2 true entries — the 2
is hardcoded, whatever the window size; only at the default window size
`N = 3` does this coincide with the generalized majority rule
`count >= (N // 2) + 1`. -/
theorem c3_amended (cfg : DetectorConfig) (h : List Bool) :
    (consistentMotion cfg h = true ↔
      (cfg.motion_smoothing_frames ≤ h.length ∧ 2 ≤ (h.filter id).length)) ∧
    (cfg.motion_smoothing_frames = 3 →
      consistentMotion cfg h = specMajorityConfirmed cfg h) := by
  constructor
  · simp [consistentMotion]
  · intro h3
    simp [consistentMotion, specMajorityConfirmed, h3]

/-- Witness for `c3_amended` at the window the counterexample produces, with
the default 3-frame configuration. -/
theorem c3_witness :
    (consistentMotion defaultConfig [true, true, false] = true ↔
      (defaultConfig.motion_smoothing_frames ≤ ([true, true, false] : List Bool).length ∧
        2 ≤ (([true, true, false] : List Bool).filter id).length)) ∧
    consistentMotion defaultConfig [true, true, false] =
      specMajorityConfirmed defaultConfig [true, true, false] :=
  ⟨(c3_amended defaultConfig [true, true, false]).1,
    (c3_amended defaultConfig [true, true, false]).2 (by decide)⟩

/-! Claim C4. -/

/-- C4: after any sequence of `add_roi` calls from a state within capacity,
the ROI list never exceeds `max_rois`, and an `add_roi` on a state already
holding exactly `max_rois` entries returns `false` and leaves the state
unchanged. -/
theorem c4_capacity :
    (∀ (seq : List (Int × Int × Int × Int)) (st : DetectorState),
      st.rois.length ≤ st.config.max_rois →
        (addSeq seq st).rois.length ≤ st.config.max_rois) ∧
    (∀ (st : DetectorState) (x1 y1 x2 y2 : Int),
      st.rois.length = st.config.max_rois →
        add_roi st x1 y1 x2 y2 = (false, st)) := by
  constructor
  · intro seq st h
    exact (addSeq_inv seq st).2 h
  · intro st x1 y1 x2 y2 h
    unfold add_roi
    rw [if_pos (le_of_eq h.symm)]

/-- Witness for `c4_capacity`: five adds on a fresh default store stay within
the 4-ROI cap, and an add on a full store fails and changes nothing. -/
theorem c4_witness :
    (addSeq [(0,0,1,1), (0,0,2,2), (0,0,3,3), (0,0,4,4), (0,0,5,5)]
        (freshState defaultConfig)).rois.length ≤
      (freshState defaultConfig).config.max_rois ∧
    add_roi (addSeq [(0,0,1,1), (0,0,2,2), (0,0,3,3), (0,0,4,4)]
        (freshState defaultConfig)) 0 0 9 9 =
      (false, addSeq [(0,0,1,1), (0,0,2,2), (0,0,3,3), (0,0,4,4)]
        (freshState defaultConfig)) := by
  constructor
  · exact c4_capacity.1 _ (freshState defaultConfig) (by decide)
  · exact c4_capacity.2 _ 0 0 9 9 (by decide)

/-! Claim C5. -/

/-- Configuration used by the C5 witness: a single small contour flags rain,
and a single foreground pixel inside the ROI counts as raw motion. -/
def cfgC5 : DetectorConfig where
  motion_threshold := 0
  min_contour_area := 2
  max_small_contours := 0
  motion_smoothing_frames := 2
  max_rois := 4

/-- The C5 witness frame: one isolated pixel (a small contour, flagging
rain) next to a two-pixel blob (a large contour, raw motion in the ROI). -/
def maskC5 : List (List Bool) := [[true, false, true, true]]

/-- C5 witness state: one ROI whose own raw and smoothed signal will be
positive on the next frame. -/
def stC5 : DetectorState where
  config := cfgC5
  rois := [{ id := 1, coords := (0, 0, 4, 1), motion_detected := false,
             last_motion_time := none }]
  motion_history := [(1, [true])]
  rain_detection_active := false

/-- C5: every ROI record written by `detect_motion_in_rois` carries, as its
final motion flag, its smoothed confirmed-motion value AND NOT the rain flag
recomputed for this frame; in particular, while rain is active no ROI
reports confirmed motion, whatever its own signal. -/
theorem c5_rain_gate (st : DetectorState) (mask : List (List Bool)) (now : Nat) :
    ((detect_motion_in_rois st mask now).2.rois.map (fun r => r.motion_detected) =
      (loopWindows st.config mask st.rois st.motion_history).map
        (fun h => consistentMotion st.config h && !rainActive st.config mask)) ∧
    (rainActive st.config mask = true →
      ∀ r ∈ (detect_motion_in_rois st mask now).2.rois, r.motion_detected = false) := by
  by_cases hE : st.rois.isEmpty
  · have hnil : st.rois = [] := List.isEmpty_iff.mp hE
    constructor
    · simp [detect_motion_in_rois, hE, hnil, loopWindows]
    · intro _ r hr
      rw [detect_motion_in_rois, if_pos hE] at hr
      simp [hnil] at hr
  · have hE' : st.rois.isEmpty = false := Bool.eq_false_iff.mpr hE
    have hmap := roiLoop_flags st.config mask (rainActive st.config mask) now
      st.rois st.motion_history
    constructor
    · simpa [detect_motion_in_rois, hE'] using hmap
    · intro hrain r hr
      rw [detect_motion_in_rois, if_neg (by simp [hE'])] at hr
      simp only at hr
      have hmem : r.motion_detected ∈
          (roiLoop st.config mask (rainActive st.config mask) now st.rois
            st.motion_history).2.1.map (fun r => r.motion_detected) :=
        List.mem_map_of_mem _ hr
      rw [hmap] at hmem
      rcases List.mem_map.mp hmem with ⟨w, _, hw⟩
      rw [← hw, hrain]
      simp

/-- Witness for `c5_rain_gate` at the C5 scenario, whose frame both flags
rain and makes the ROI raw- and smoothed-positive: the gate still forces the
flag to false. -/
theorem c5_witness :
    ((detect_motion_in_rois stC5 maskC5 0).2.rois.map (fun r => r.motion_detected) =
      (loopWindows stC5.config maskC5 stC5.rois stC5.motion_history).map
        (fun h => consistentMotion stC5.config h && !rainActive stC5.config maskC5)) ∧
    (∀ r ∈ (detect_motion_in_rois stC5 maskC5 0).2.rois, r.motion_detected = false) ∧
    rainActive stC5.config maskC5 = true ∧
    consistentMotion stC5.config
      (roiNewHistory stC5.config maskC5 (stC5.rois.getD 0
        { id := 0, coords := (0,0,0,0), motion_detected := false,
          last_motion_time := none }) stC5.motion_history) = true := by
  refine ⟨(c5_rain_gate stC5 maskC5 0).1,
    (c5_rain_gate stC5 maskC5 0).2 (by decide), by decide, by decide⟩

/-! Claim C6. -/

/-- Fresh default store after one add: holds ROI id 1. -/
def stC6a : DetectorState := (add_roi (freshState defaultConfig) 0 0 1 1).2

/-- After a second add: holds ROI ids 1 and 2. -/
def stC6b : DetectorState := (add_roi stC6a 0 0 2 2).2

/-- C6 counterexample: ids can be recycled after a delete.  Add twice (ids 1
and 2), delete id 2 — the current maximum — and the next add assigns
`max([1]) + 1 = 2` again, reissuing the deleted id, so "ids are never
recycled after a delete" is false as a universal statement. -/
theorem c6_counterexample :
    stC6b.rois.map Roi.id = [1, 2] ∧
    (delete_roi stC6b 2).1 = true ∧
    (add_roi (delete_roi stC6b 2).2 0 0 3 3).2.rois.map Roi.id = [1, 2] := by
  refine ⟨?_, ?_, ?_⟩ <;> decide

/-- C6 amended: a successful `add_roi` assigns the id
`max(existing ids, default 0) + 1`, which is strictly greater than every id
currently in the store — so an id below the surviving maximum is never
reissued, and the spec example holds (add gives 1, add gives 2, delete 1,
add gives 3) — but deleting the current maximum id frees that id for the
next add. -/
theorem c6_amended :
    (∀ (st : DetectorState) (x1 y1 x2 y2 : Int),
      st.rois.length < st.config.max_rois →
        ((add_roi st x1 y1 x2 y2).1 = true ∧
          (add_roi st x1 y1 x2 y2).2.rois.map Roi.id =
            st.rois.map Roi.id ++ [maxRoiId st.rois + 1] ∧
          ∀ r ∈ st.rois, r.id < maxRoiId st.rois + 1)) ∧
    (delete_roi stC6b 1).1 = true ∧
    (add_roi (delete_roi stC6b 1).2 0 0 3 3).2.rois.map Roi.id = [2, 3] := by
  refine ⟨?_, by decide, by decide⟩
  intro st x1 y1 x2 y2 hlt
  have hne : ¬ st.config.max_rois ≤ st.rois.length := not_le.mpr hlt
  unfold add_roi
  rw [if_neg hne]
  refine ⟨rfl, by simp, ?_⟩
  intro r hr
  exact Nat.lt_succ_of_le (id_le_maxRoiId st.rois r hr)

/-- Witness for `c6_amended` at the fresh default store. -/
theorem c6_witness :
    ((add_roi (freshState defaultConfig) 0 0 1 1).1 = true ∧
      (add_roi (freshState defaultConfig) 0 0 1 1).2.rois.map Roi.id =
        (freshState defaultConfig).rois.map Roi.id ++
          [maxRoiId (freshState defaultConfig).rois + 1] ∧
      ∀ r ∈ (freshState defaultConfig).rois,
        r.id < maxRoiId (freshState defaultConfig).rois + 1) ∧
    (delete_roi stC6b 1).1 = true ∧
    (add_roi (delete_roi stC6b 1).2 0 0 3 3).2.rois.map Roi.id = [2, 3] :=
  ⟨c6_amended.1 (freshState defaultConfig) 0 0 1 1 (by decide),
    c6_amended.2.1, c6_amended.2.2⟩

/-! Claim C7. -/

/-- C7: a successful `save_rois` followed by `load_rois` of the written file
on a fresh store succeeds and reproduces an ROI list with the same ids and
coords in the same order. -/
theorem c7_roundtrip (st : DetectorState) (cfg : DetectorConfig) :
    (save_rois st true).1 = true ∧
    ∀ f, (save_rois st true).2 = some f →
      ((load_rois (freshState cfg) f).1 = true ∧
        (load_rois (freshState cfg) f).2.rois.map (fun r => (r.id, r.coords)) =
          st.rois.map (fun r => (r.id, r.coords))) := by
  refine ⟨rfl, ?_⟩
  intro f hf
  have hfr : f = RoiFile.records st.rois := by
    simpa [save_rois] using hf.symm
  subst hfr
  exact ⟨rfl, rfl⟩

/-- C7 witness store: two ROIs, one with transient motion state set. -/
def stC7 : DetectorState where
  config := defaultConfig
  rois := [{ id := 1, coords := (0, 0, 10, 10), motion_detected := true,
             last_motion_time := some 42 },
           { id := 3, coords := (5, 5, 8, 9), motion_detected := false,
             last_motion_time := none }]
  motion_history := [(1, [true, true, false])]
  rain_detection_active := true

/-- Witness for `c7_roundtrip` at the C7 store. -/
theorem c7_witness :
    (save_rois stC7 true).1 = true ∧
    (load_rois (freshState defaultConfig) (RoiFile.records stC7.rois)).1 = true ∧
    (load_rois (freshState defaultConfig)
        (RoiFile.records stC7.rois)).2.rois.map (fun r => (r.id, r.coords)) =
      stC7.rois.map (fun r => (r.id, r.coords)) :=
  ⟨(c7_roundtrip stC7 defaultConfig).1,
    ((c7_roundtrip stC7 defaultConfig).2 (RoiFile.records stC7.rois) rfl).1,
    ((c7_roundtrip stC7 defaultConfig).2 (RoiFile.records stC7.rois) rfl).2⟩

/-! Claim C8. -/

/-- Configuration used by the C8 counterexample: every contour counts toward
the area sum. -/
def cfgC8 : DetectorConfig where
  motion_threshold := 0
  min_contour_area := 1
  max_small_contours := 50
  motion_smoothing_frames := 3
  max_rois := 4

/-- The C8 frame mask: a single row of two foreground pixels. -/
def maskC8 : List (List Bool) := [[true, true]]

/-- An ROI rectangle reaching well past the 2-by-1 frame on the right and the
bottom, while still covering the in-bounds pixels. -/
def roiC8 : Roi where
  id := 1
  coords := (0, 0, 5, 5)
  motion_detected := false
  last_motion_time := none

/-- C8 counterexample: a rectangle that lies partially outside the frame
(both corners 5 exceed the frame width 2 and height 1) crops to an
undersized region that still contains a two-pixel contour, so its
`total_area` is 2, not the claimed 0. -/
theorem c8_counterexample :
    roiTotalArea cfgC8 maskC8 roiC8 = 2 ∧
    maskC8.length = 1 ∧ (maskC8.getD 0 []).length = 2 ∧
    roiC8.coords = (0, 0, 5, 5) := by
  refine ⟨?_, ?_, ?_, ?_⟩ <;> decide

/-- C8 amended: the crop clips instead of raising for every rectangle, and a
rectangle lying fully outside the frame — nonnegative coordinates starting
at or past the bottom edge, or at or past the right edge of every row —
yields a contour-free crop and `total_area = 0`; a rectangle only partially
outside yields an undersized crop whose area sum can still be positive. -/
theorem c8_amended (cfg : DetectorConfig) (mask : List (List Bool)) (roi : Roi)
    (hout : (0 ≤ roi.coords.2.1 ∧ (mask.length : Int) ≤ roi.coords.2.1) ∨
      (0 ≤ roi.coords.1 ∧ ∀ row ∈ mask, ((row.length : Int) ≤ roi.coords.1))) :
    roiTotalArea cfg mask roi = 0 :=
  roiTotalArea_eq_zero cfg mask roi hout

/-- An ROI rectangle fully below the C8 frame. -/
def roiC8out : Roi where
  id := 2
  coords := (5, 9, 7, 12)
  motion_detected := false
  last_motion_time := none

/-- Witness for `c8_amended`: the fully-outside rectangle scores zero. -/
theorem c8_witness : roiTotalArea cfgC8 maskC8 roiC8out = 0 :=
  c8_amended cfgC8 maskC8 roiC8out (Or.inl ⟨by decide, by decide⟩)

/-! Claim C9. -/

/-- C9: `load_rois` on an absent file reports the not-found failure `false`
and leaves the state untouched; a caught read or parse failure does the
same; a caught I/O failure in `save_rois` reports `false`.  In the embedding
every branch returns a boolean — the `try`/`except` wrappers of
detector.py lines 191-203 and 207-222 let no exception escape. -/
theorem c9_persistence_errors (st : DetectorState) :
    load_rois st RoiFile.absent = (false, st) ∧
    load_rois st RoiFile.malformed = (false, st) ∧
    save_rois st false = (false, none) :=
  ⟨rfl, rfl, rfl⟩

/-! Claim C10. -/

/-- A config file holding five ROI records, one more than the default
`max_rois`. -/
def overfullFile : List Roi :=
  [{ id := 1, coords := (0, 0, 1, 1), motion_detected := false, last_motion_time := none },
   { id := 2, coords := (0, 0, 2, 2), motion_detected := false, last_motion_time := none },
   { id := 3, coords := (0, 0, 3, 3), motion_detected := false, last_motion_time := none },
   { id := 4, coords := (0, 0, 4, 4), motion_detected := false, last_motion_time := none },
   { id := 5, coords := (0, 0, 5, 5), motion_detected := false, last_motion_time := none }]

/-- C10: `load_rois` replaces the whole ROI list with the parsed records,
whatever the state held, with no capacity check: loading a five-record file
into a fresh default store succeeds and leaves the store over its
`max_rois = 4` cap, and only a subsequent `add_roi` enforces the cap by
failing. -/
theorem c10_load_unchecked :
    (∀ (st : DetectorState) (rs : List Roi),
      load_rois st (RoiFile.records rs) = (true, { st with rois := rs })) ∧
    (load_rois (freshState defaultConfig) (RoiFile.records overfullFile)).1 = true ∧
    (load_rois (freshState defaultConfig)
      (RoiFile.records overfullFile)).2.rois.length = 5 ∧
    defaultConfig.max_rois < 5 ∧
    add_roi (load_rois (freshState defaultConfig)
        (RoiFile.records overfullFile)).2 0 0 1 1 =
      (false, (load_rois (freshState defaultConfig)
        (RoiFile.records overfullFile)).2) := by
  refine ⟨fun st rs => rfl, rfl, by decide, by decide, by decide⟩
